import Mathlib

/-!
Shallow embedding of the artist identity resolution and enrichment pipeline
of `src/artist_manager.py` (class `ArtistManager`).

Python dictionaries that flow through the pipeline are modelled as ordered
association lists `List (String × Val)` with Python `dict` semantics for
indexing, `update` and key insertion order.  The SQLite database is modelled
as three lists of rows plus the next rowid.  `datetime.now()` values are
supplied as explicit `Nat` parameters.  Float confidences are modelled as
exact rationals (the code only ever assigns and compares the literals
0.0, 0.5, 0.8; no float arithmetic occurs).  A `KeyError` escaping a method
is modelled with `Except`; exceptions the code catches internally
(`try ... except ... rollback`) are modelled by returning the unchanged
database state.
-/

namespace GreenvilleMusic

/-- Values storable in the Python dicts used by `ArtistManager`. -/
inductive Val where
  | str (s : String)
  | nat (n : Nat)
  | bool (b : Bool)
  | rat (q : ℚ)
  | strList (l : List String)
  | visitList (l : List (String × Nat))
  deriving DecidableEq, Repr

/-- A Python dict with string keys, as an insertion-ordered association list. -/
abbrev Dict := List (String × Val)

/-- Python `d[k]` as an option (first binding wins; our operations keep keys unique). -/
def dictGet (d : Dict) (k : String) : Option Val :=
  (d.find? (fun p => p.1 == k)).map (·.2)

/-- Python `d[k] = v`: overwrite in place if the key exists, else append. -/
def dictSet (d : Dict) (k : String) (v : Val) : Dict :=
  if d.any (fun p => p.1 == k) then
    d.map (fun p => if p.1 == k then (k, v) else p)
  else
    d ++ [(k, v)]

/-- Python `d.update(d2)`. -/
def dictUpdate (d d2 : Dict) : Dict :=
  d2.foldl (fun acc p => dictSet acc p.1 p.2) d

/-- The key list of a dict, in insertion order. -/
def dictKeys (d : Dict) : List String := d.map (·.1)

def getStr (d : Dict) (k : String) : String :=
  match dictGet d k with | some (.str s) => s | _ => ""

def getNat (d : Dict) (k : String) : Nat :=
  match dictGet d k with | some (.nat n) => n | _ => 0

def getBool (d : Dict) (k : String) : Bool :=
  match dictGet d k with | some (.bool b) => b | _ => false

def getRat (d : Dict) (k : String) : ℚ :=
  match dictGet d k with | some (.rat q) => q | _ => 0

def getStrList (d : Dict) (k : String) : List String :=
  match dictGet d k with | some (.strList l) => l | _ => []

/-- One artist item as returned by the Spotify search API
(`results['artists']['items'][i]`): the fields the code reads. -/
structure SpotifyArtist where
  name : String
  genres : List String
  popularity : Nat
  id : String
  deriving DecidableEq, Repr

/-- Outcome of one `self.spotify.search(...)` call: either the API raised
(caught by the code) or it returned a list of items. -/
inductive SearchResult where
  | err
  | ok (items : List SpotifyArtist)
  deriving DecidableEq, Repr

/-- The Spotify client, abstracted as the response it gives per query string. -/
abbrev SpotifyClient := String → SearchResult

/-- A Python exception escaping a method of `ArtistManager`. -/
inductive PyError where
  | keyError (key : String)
  deriving DecidableEq, Repr

/-- Row of the `artists` table. -/
structure ArtistRow where
  id : Nat
  name : String
  is_local : Bool
  verification_source : String
  last_updated : Nat
  deriving DecidableEq, Repr

/-- Row of the `artist_genres` table. -/
structure GenreRow where
  artist_id : Nat
  genre : String
  confidence : ℚ
  source : String
  deriving DecidableEq, Repr

/-- Row of the `artist_venues` table. -/
structure VenueRow where
  artist_id : Nat
  venue : String
  last_played : Nat
  deriving DecidableEq, Repr

/-- The SQLite database state: the three tables plus the next rowid the
`artists` table will assign (`c.lastrowid` after an insert). -/
structure DB where
  artists : List ArtistRow
  genres : List GenreRow
  venues : List VenueRow
  nextId : Nat
  deriving DecidableEq, Repr

/-- The state right after `setup_database` on a fresh file: empty tables,
first assigned rowid is 1. -/
def DB.empty : DB := ⟨[], [], [], 1⟩

/-- Well-formed database: every row references an id below the next rowid.
Holds for every state reachable from `DB.empty` through the operations. -/
def DB.WF (db : DB) : Prop :=
  (∀ a ∈ db.artists, a.id < db.nextId) ∧
  (∀ g ∈ db.genres, g.artist_id < db.nextId) ∧
  (∀ v ∈ db.venues, v.artist_id < db.nextId)

instance (db : DB) : Decidable db.WF := by
  unfold DB.WF; infer_instance

/-- `ArtistManager.get_spotify_info`: top-1 search; confidence 0.8 on an
exact case-insensitive name match, else 0.5; `None` when the client is
absent, the API raised, or no items came back. -/
def get_spotify_info (spotify : Option SpotifyClient) (artist_name : String) :
    Option Dict :=
  match spotify with
  | none => none
  | some client =>
    match client artist_name with
    | .err => none
    | .ok [] => none
    | .ok (artist :: _) =>
      some [("genres", .strList artist.genres),
            ("popularity", .nat artist.popularity),
            ("spotify_id", .str artist.id),
            ("confidence",
              .rat (if artist.name.toLower == artist_name.toLower
                    then 8/10 else 5/10))]

/-- `ArtistManager.check_social_media`: builds an empty fragment (the API
calls are unimplemented stubs) and returns it only if `info['sources']` is
truthy, i.e. nonempty — so it always returns `None`. -/
def check_social_media (_artist_name : String) : Option Dict :=
  let info : Dict :=
    [("genres", .strList []), ("sources", .strList []), ("is_local", .bool false)]
  if (getStrList info "sources").isEmpty then none else some info

/-- `ArtistManager.check_venue_history`: same stub structure as
`check_social_media`; the per-venue scraping loop bodies are `pass`. -/
def check_venue_history (_artist_name : String) : Option Dict :=
  let info : Dict :=
    [("genres", .strList []), ("sources", .strList []), ("is_local", .bool false)]
  if (getStrList info "sources").isEmpty then none else some info

/-- `ArtistManager.update_venue_info`: appends one `artist_venues` row with
the current timestamp; its `try/except` swallows any database error. -/
def update_venue_info (db : DB) (artist_id : Nat) (venue : String) (now : Nat) :
    DB :=
  { db with venues := db.venues ++ [⟨artist_id, venue, now⟩] }

/-- `ArtistManager.save_artist_to_db`: inserts the artist row, then one
genre row per element of `set(artist_info['genres'])`, each carrying the
record-level confidence and the comma-joined source list; any exception
(including the UNIQUE-name violation) is caught, rolled back, and not
re-raised, so on failure the database is unchanged and nothing is returned
or propagated.  Python's `set` iteration order is unspecified; it is
modelled by `List.dedup`. -/
def save_artist_to_db (db : DB) (artist_info : Dict) (now : Nat) : DB :=
  let name := getStr artist_info "name"
  if db.artists.any (fun a => a.name == name) then
    db
  else
    let artist_id := db.nextId
    let src := String.intercalate "," (getStrList artist_info "sources")
    let newGenres := (getStrList artist_info "genres").dedup.map
      (fun g => GenreRow.mk artist_id g (getRat artist_info "confidence") src)
    { artists := db.artists ++
        [⟨artist_id, name, getBool artist_info "is_local", src, now⟩],
      genres := db.genres ++ newGenres,
      venues := db.venues,
      nextId := db.nextId + 1 }

/-- `ArtistManager.get_artist_from_db`: exact (case-sensitive) name lookup;
on a hit, hydrates genres and venue history and returns the seven-key dict
of lines 217–225. -/
def get_artist_from_db (db : DB) (artist_name : String) : Option Dict :=
  match db.artists.find? (fun a => a.name == artist_name) with
  | none => none
  | some a =>
    let genres := (db.genres.filter (fun g => g.artist_id == a.id)).map (·.genre)
    let venues := (db.venues.filter (fun v => v.artist_id == a.id)).map
      (fun v => (v.venue, v.last_played))
    some [("id", .nat a.id), ("name", .str a.name), ("is_local", .bool a.is_local),
          ("verification_source", .str a.verification_source),
          ("last_updated", .nat a.last_updated),
          ("genres", .strList genres), ("venues", .visitList venues)]

/-- Merge pattern of `gather_artist_info` lines 87–100 for the social-media
and venue-history fragments: OR the locality flag, extend genres when the
fragment has any, extend sources. -/
def mergeFragment (info : Dict) (frag : Option Dict) : Dict :=
  match frag with
  | none => info
  | some f =>
    let info := dictSet info "is_local" (.bool (getBool info "is_local" || getBool f "is_local"))
    let info :=
      if (getStrList f "genres").isEmpty then info
      else dictSet info "genres" (.strList (getStrList info "genres" ++ getStrList f "genres"))
    dictSet info "sources" (.strList (getStrList info "sources" ++ getStrList f "sources"))

/-- `ArtistManager.gather_artist_info`: builds the candidate dict, overlays
the Spotify fragment via `dict.update` and appends the `'spotify'`
provenance tag, merges the (always absent) social and venue fragments, and
finally — when a venue was supplied — evaluates `info['id']`, a key never
set on this dict, raising `KeyError` before `update_venue_info` can run. -/
def gather_artist_info (spotify : Option SpotifyClient) (artist_name : String)
    (venue : Option String) (db : DB) (now : Nat) : Except PyError (Dict × DB) :=
  let info : Dict :=
    [("name", .str artist_name), ("genres", .strList []),
     ("is_local", .bool false), ("confidence", .rat 0),
     ("sources", .strList [])]
  let info :=
    match spotify with
    | none => info
    | some _ =>
      match get_spotify_info spotify artist_name with
      | none => info
      | some spotify_info =>
        let info := dictUpdate info spotify_info
        dictSet info "sources" (.strList (getStrList info "sources" ++ ["spotify"]))
  let info := mergeFragment info (check_social_media artist_name)
  let info := mergeFragment info (check_venue_history artist_name)
  match venue with
  | none => .ok (info, db)
  | some v =>
    match dictGet info "id" with
    | some (.nat i) => .ok (info, update_venue_info db i v now)
    | _ => .error (.keyError "id")

/-- `ArtistManager.process_artist` (the `resolve` entry point): database
first; on a hit, record the venue visit when a venue is supplied and return
the stored record; on a miss, gather, save, and return the gathered dict. -/
def process_artist (spotify : Option SpotifyClient) (db : DB)
    (artist_name : String) (venue : Option String) (now : Nat) :
    Except PyError (Dict × DB) :=
  match get_artist_from_db db artist_name with
  | some artist_info =>
    let db' :=
      match venue with
      | some v => update_venue_info db (getNat artist_info "id") v now
      | none => db
    .ok (artist_info, db')
  | none =>
    match gather_artist_info spotify artist_name venue db now with
    | .error e => .error e
    | .ok (artist_info, db') => .ok (artist_info, save_artist_to_db db' artist_info now)

/-! ### Characterization of the gathered candidate dict -/

/-- The candidate dict when no Spotify fragment contributed. -/
def baseCandidate (name : String) : Dict :=
  [("name", .str name), ("genres", .strList []),
   ("is_local", .bool false), ("confidence", .rat 0),
   ("sources", .strList [])]

/-- The candidate dict when the Spotify fragment for top-1 item `a`
contributed. -/
def spotifyCandidate (name : String) (a : SpotifyArtist) : Dict :=
  [("name", .str name), ("genres", .strList a.genres),
   ("is_local", .bool false),
   ("confidence", .rat (if a.name.toLower == name.toLower then 8/10 else 5/10)),
   ("sources", .strList ["spotify"]),
   ("popularity", .nat a.popularity), ("spotify_id", .str a.id)]

/-- The candidate `gather_artist_info` builds, as a function of the client's
response. -/
def candidate (sp : Option SpotifyClient) (name : String) : Dict :=
  match sp with
  | none => baseCandidate name
  | some client =>
    match client name with
    | .err => baseCandidate name
    | .ok [] => baseCandidate name
    | .ok (a :: _) => spotifyCandidate name a

/-- The §5 check-then-act race of two resolutions for the same new name,
replayed over the statements of `process_artist`: this resolution's store
lookup ran against `dbFind`, and by the time its insert ran the rival had
committed, so the write-side state is `dbCommit`.  The statement sequence
is exactly that of `process_artist`; only the store state differs between
the two store calls. -/
def process_artist_raced (sp : Option SpotifyClient) (dbFind dbCommit : DB)
    (artist_name : String) (venue : Option String) (now : Nat) :
    Except PyError (Dict × DB) :=
  match get_artist_from_db dbFind artist_name with
  | some artist_info =>
    let db' :=
      match venue with
      | some v => update_venue_info dbCommit (getNat artist_info "id") v now
      | none => dbCommit
    .ok (artist_info, db')
  | none =>
    match gather_artist_info sp artist_name venue dbCommit now with
    | .error e => .error e
    | .ok (artist_info, db') => .ok (artist_info, save_artist_to_db db' artist_info now)

/-- The hydrated dict `get_artist_from_db` returns for artist row `a`. -/
def hitDict (db : DB) (a : ArtistRow) : Dict :=
  [("id", .nat a.id), ("name", .str a.name), ("is_local", .bool a.is_local),
   ("verification_source", .str a.verification_source),
   ("last_updated", .nat a.last_updated),
   ("genres", .strList ((db.genres.filter (fun g => g.artist_id == a.id)).map (·.genre))),
   ("venues", .visitList ((db.venues.filter (fun v => v.artist_id == a.id)).map
      (fun v => (v.venue, v.last_played))))]

/-- A concrete Spotify client used to instantiate the theorems: the search
always returns one exact-match artist for "Radio Room Allstars". -/
def demoClient : SpotifyClient :=
  fun _ => .ok [⟨"Radio Room Allstars", ["rock", "blues"], 50, "sp-demo"⟩]

/-- A small populated store used to instantiate hypothesized theorems:
one artist "X" with id 1, one genre row, no visits. -/
def demoDB : DB :=
  ⟨[⟨1, "X", false, "spotify", 0⟩], [⟨1, "rock", 1/2, "spotify"⟩], [], 2⟩

/-- Character-wise lower-casing of a string, used to phrase the
"names differing only in letter case" precondition of the lookup claims. -/
def lowerStr (s : String) : String := ⟨s.data.map Char.toLower⟩

lemma gather_eq_candidate (sp : Option SpotifyClient) (name : String)
    (db : DB) (now : Nat) :
    gather_artist_info sp name none db now = .ok (candidate sp name, db) := by
  cases sp with
  | none => rfl
  | some client =>
    cases h : client name with
    | err =>
      simp [gather_artist_info, get_spotify_info, h, candidate, baseCandidate,
        mergeFragment, check_social_media, check_venue_history, getStrList, dictGet]
    | ok items =>
      cases items with
      | nil =>
        simp [gather_artist_info, get_spotify_info, h, candidate, baseCandidate,
          mergeFragment, check_social_media, check_venue_history, getStrList, dictGet]
      | cons a rest =>
        simp [gather_artist_info, get_spotify_info, h, candidate, spotifyCandidate,
          mergeFragment, check_social_media, check_venue_history, getStrList,
          dictGet, dictUpdate, dictSet]

lemma candidate_id_none (sp : Option SpotifyClient) (name : String) :
    dictGet (candidate sp name) "id" = none := by
  cases sp with
  | none => rfl
  | some client =>
    cases h : client name with
    | err => simp [candidate, h, baseCandidate, dictGet]
    | ok items =>
      cases items with
      | nil => simp [candidate, h, baseCandidate, dictGet]
      | cons a rest => simp [candidate, h, spotifyCandidate, dictGet]

lemma gather_some_venue (sp : Option SpotifyClient) (name v : String)
    (db : DB) (now : Nat) :
    gather_artist_info sp name (some v) db now = .error (.keyError "id") := by
  cases sp with
  | none =>
    simp [gather_artist_info, mergeFragment, check_social_media,
      check_venue_history, getStrList, dictGet, dictSet]
  | some client =>
    cases h : client name with
    | err =>
      simp [gather_artist_info, get_spotify_info, h, mergeFragment,
        check_social_media, check_venue_history, getStrList, dictGet]
    | ok items =>
      cases items with
      | nil =>
        simp [gather_artist_info, get_spotify_info, h, mergeFragment,
          check_social_media, check_venue_history, getStrList, dictGet]
      | cons a rest =>
        simp [gather_artist_info, get_spotify_info, h, mergeFragment,
          check_social_media, check_venue_history, getStrList, dictGet,
          dictUpdate, dictSet]

/-! ### Characterization of the store operations -/

lemma get_artist_from_db_of_find (db : DB) (n : String) (a : ArtistRow)
    (h : db.artists.find? (fun r => r.name == n) = some a) :
    get_artist_from_db db n = some (hitDict db a) := by
  unfold get_artist_from_db
  rw [h]
  rfl

lemma get_artist_from_db_none (db : DB) (n : String)
    (h : ∀ a ∈ db.artists, a.name ≠ n) :
    get_artist_from_db db n = none := by
  unfold get_artist_from_db
  have : db.artists.find? (fun r => r.name == n) = none := by
    rw [List.find?_eq_none]
    intro a ha
    simpa using h a ha
  rw [this]

lemma save_fresh (db : DB) (info : Dict) (now : Nat)
    (h : ∀ a ∈ db.artists, a.name ≠ getStr info "name") :
    save_artist_to_db db info now =
      { artists := db.artists ++
          [⟨db.nextId, getStr info "name", getBool info "is_local",
            String.intercalate "," (getStrList info "sources"), now⟩],
        genres := db.genres ++ (getStrList info "genres").dedup.map
          (fun g => ⟨db.nextId, g, getRat info "confidence",
            String.intercalate "," (getStrList info "sources")⟩),
        venues := db.venues,
        nextId := db.nextId + 1 } := by
  have hb : db.artists.any (fun a => a.name == getStr info "name") = false := by
    simp only [List.any_eq_false, beq_iff_eq]
    exact h
  simp [save_artist_to_db, hb]

lemma save_dup (db : DB) (info : Dict) (now : Nat)
    (h : ∃ a ∈ db.artists, a.name = getStr info "name") :
    save_artist_to_db db info now = db := by
  have hb : db.artists.any (fun a => a.name == getStr info "name") = true := by
    simp only [List.any_eq_true, beq_iff_eq]
    exact h
  simp [save_artist_to_db, hb]

/-! ### Claims -/

/-- Claim C1 (code-bug evidence): on every cache miss with a venue
supplied, `process_artist` raises `KeyError: 'id'` — `gather_artist_info`
reads `info['id']` before any insert has assigned an id — so no candidate
is persisted, no visit is recorded, and no record (with or without an id)
is returned, contrary to the claimed merge → insert → record-visit →
return-with-id sequence. -/
theorem processArtist_miss_with_venue_raises (sp : Option SpotifyClient)
    (db : DB) (name v : String) (now : Nat)
    (hmiss : get_artist_from_db db name = none) :
    process_artist sp db name (some v) now = .error (.keyError "id") := by
  simp [process_artist, hmiss, gather_some_venue]

/-- Witness for `processArtist_miss_with_venue_raises` at the spec's §8
scenario input: empty store, name "Radio Room Allstars", venue
"Radio Room", exact-match catalog client. -/
theorem processArtist_miss_with_venue_raises_witness :
    get_artist_from_db DB.empty "Radio Room Allstars" = none ∧
    process_artist (some demoClient) DB.empty "Radio Room Allstars"
      (some "Radio Room") 0 = .error (.keyError "id") :=
  ⟨rfl, processArtist_miss_with_venue_raises (some demoClient) DB.empty
    "Radio Room Allstars" "Radio Room" 0 rfl⟩

/-- Claim C3: on a cache miss (no venue, so the pipeline completes) the
resolved record's confidence is exactly the catalog rule — 0.8 on an exact
case-insensitive name match of the top search item, 0.5 on a non-exact
match, and 0.0 when the catalog adapter was absent (no client, API error,
or no items); moreover the catalog provenance tag `"spotify"` is in the
record's sources exactly when the adapter contributed. -/
theorem confidence_from_catalog (sp : Option SpotifyClient) (db : DB)
    (name : String) (now : Nat)
    (hmiss : get_artist_from_db db name = none) :
    ∃ d db', process_artist sp db name none now = .ok (d, db') ∧
      dictGet d "confidence" = some (.rat
        (match sp with
         | none => 0
         | some client =>
           match client name with
           | .err => 0
           | .ok [] => 0
           | .ok (a :: _) =>
             if a.name.toLower == name.toLower then 8/10 else 5/10)) ∧
      ("spotify" ∈ getStrList d "sources" ↔
        ∃ client a rest, sp = some client ∧ client name = .ok (a :: rest)) := by
  refine ⟨candidate sp name,
    save_artist_to_db db (candidate sp name) now, ?_, ?_, ?_⟩
  · simp [process_artist, hmiss, gather_eq_candidate]
  · cases sp with
    | none => rfl
    | some client =>
      cases h : client name with
      | err => simp [candidate, h, baseCandidate, dictGet]
      | ok items =>
        cases items with
        | nil => simp [candidate, h, baseCandidate, dictGet]
        | cons a rest => simp [candidate, h, spotifyCandidate, dictGet]
  · cases sp with
    | none => simp [candidate, baseCandidate, getStrList, dictGet]
    | some client =>
      cases h : client name with
      | err => simp [candidate, h, baseCandidate, getStrList, dictGet]
      | ok items =>
        cases items with
        | nil => simp [candidate, h, baseCandidate, getStrList, dictGet]
        | cons a rest =>
          simp [candidate, h, spotifyCandidate, getStrList, dictGet]

/-- Witness for `confidence_from_catalog`: empty store, exact-match client
gives confidence 0.8 with provenance "spotify". -/
theorem confidence_from_catalog_witness :
    ∃ d db', process_artist (some demoClient) DB.empty "Radio Room Allstars"
        none 0 = .ok (d, db') ∧
      dictGet d "confidence" = some (.rat
        (match some demoClient with
         | none => 0
         | some client =>
           match client "Radio Room Allstars" with
           | .err => 0
           | .ok [] => 0
           | .ok (a :: _) =>
             if a.name.toLower == "Radio Room Allstars".toLower
             then 8/10 else 5/10)) ∧
      ("spotify" ∈ getStrList d "sources" ↔
        ∃ client a rest, some demoClient = some client ∧
          client "Radio Room Allstars" = .ok (a :: rest)) :=
  confidence_from_catalog (some demoClient) DB.empty "Radio Room Allstars" 0 rfl

/-- Claim C4: genre deduplication happens only at persistence time — the
persisted genre rows for the inserted artist carry pairwise-distinct genre
strings, while the merge step keeps a plain list that can contain
duplicates (exhibited by a catalog response with a repeated tag). -/
theorem genres_dedup_at_persistence (info : Dict) (db : DB) (now : Nat)
    (hname : ∀ a ∈ db.artists, a.name ≠ getStr info "name")
    (hfresh : ∀ g ∈ db.genres, g.artist_id ≠ db.nextId) :
    (((save_artist_to_db db info now).genres.filter
        (fun g => g.artist_id == db.nextId)).map (·.genre)).Nodup ∧
    (∃ sp name d, gather_artist_info (some sp) name none DB.empty 0 =
        .ok (d, DB.empty) ∧ ¬ (getStrList d "genres").Nodup) := by
  constructor
  · rw [save_fresh db info now hname]
    have h1 : db.genres.filter (fun g => g.artist_id == db.nextId) = [] := by
      rw [List.filter_eq_nil_iff]
      intro g hg
      simpa using hfresh g hg
    have h2 : ((getStrList info "genres").dedup.map
        (fun g => GenreRow.mk db.nextId g (getRat info "confidence")
          (String.intercalate "," (getStrList info "sources")))).filter
        (fun g => g.artist_id == db.nextId) =
        (getStrList info "genres").dedup.map
        (fun g => GenreRow.mk db.nextId g (getRat info "confidence")
          (String.intercalate "," (getStrList info "sources"))) := by
      rw [List.filter_eq_self]
      intro r hr
      obtain ⟨g, _, rfl⟩ := List.mem_map.mp hr
      simp
    simp only [List.filter_append, h1, List.nil_append, h2, List.map_map,
      Function.comp_def]
    simpa using List.nodup_dedup (getStrList info "genres")
  · refine ⟨fun _ => .ok [⟨"A", ["rock", "rock"], 0, "i"⟩], "A",
      candidate (some (fun _ => .ok [⟨"A", ["rock", "rock"], 0, "i"⟩])) "A",
      gather_eq_candidate _ _ _ _, ?_⟩
    simp [candidate, spotifyCandidate, getStrList, dictGet]

/-- Witness for `genres_dedup_at_persistence` on the empty store and a
candidate carrying a duplicated genre tag. -/
theorem genres_dedup_at_persistence_witness :
    (∀ a ∈ DB.empty.artists,
      a.name ≠ getStr [("name", Val.str "A"),
        ("genres", Val.strList ["rock", "rock"])] "name") ∧
    (∀ g ∈ DB.empty.genres, g.artist_id ≠ DB.empty.nextId) ∧
    ((((save_artist_to_db DB.empty
          [("name", Val.str "A"), ("genres", Val.strList ["rock", "rock"])]
          0).genres.filter
        (fun g => g.artist_id == DB.empty.nextId)).map (·.genre)).Nodup ∧
    (∃ sp name d, gather_artist_info (some sp) name none DB.empty 0 =
        .ok (d, DB.empty) ∧ ¬ (getStrList d "genres").Nodup)) :=
  ⟨by simp [DB.empty], by simp [DB.empty],
   genres_dedup_at_persistence
     [("name", Val.str "A"), ("genres", Val.strList ["rock", "rock"])]
     DB.empty 0 (by simp [DB.empty]) (by simp [DB.empty])⟩

lemma candidate_name (sp : Option SpotifyClient) (name : String) :
    getStr (candidate sp name) "name" = name := by
  cases sp with
  | none => rfl
  | some client =>
    cases h : client name with
    | err => simp [candidate, h, baseCandidate, getStr, dictGet]
    | ok items =>
      cases items with
      | nil => simp [candidate, h, baseCandidate, getStr, dictGet]
      | cons a rest => simp [candidate, h, spotifyCandidate, getStr, dictGet]

lemma process_miss (sp : Option SpotifyClient) (db : DB) (name : String)
    (now : Nat) (h : ∀ a ∈ db.artists, a.name ≠ name) :
    process_artist sp db name none now =
      .ok (candidate sp name, save_artist_to_db db (candidate sp name) now) := by
  simp [process_artist, get_artist_from_db_none db name h, gather_eq_candidate]

/-- Claim C7: for an artist already present, `process_artist` leaves the
artist rows and genre rows untouched (no re-enrichment of `is_local` or
`verification_source`, which only the initial insert writes); the only
state change is appending one venue-visit row for the stored id, and only
when a venue is supplied. -/
theorem cacheHit_frame (sp : Option SpotifyClient) (db : DB) (name : String)
    (venue : Option String) (now : Nat) (a : ArtistRow)
    (hfind : db.artists.find? (fun r => r.name == name) = some a) :
    process_artist sp db name venue now =
      .ok (hitDict db a,
        { db with venues := db.venues ++
            (match venue with | some v => [⟨a.id, v, now⟩] | none => []) }) := by
  have h := get_artist_from_db_of_find db name a hfind
  cases venue with
  | none => simp [process_artist, h]
  | some v => simp [process_artist, h, update_venue_info, getNat, hitDict, dictGet]

/-- Witness for `cacheHit_frame`: a hit on "X" in `demoDB` with venue
"Radio Room" appends exactly one visit row. -/
theorem cacheHit_frame_witness :
    demoDB.artists.find? (fun r => r.name == "X") =
      some ⟨1, "X", false, "spotify", 0⟩ ∧
    process_artist none demoDB "X" (some "Radio Room") 7 =
      .ok (hitDict demoDB ⟨1, "X", false, "spotify", 0⟩,
        { demoDB with venues := demoDB.venues ++ [⟨1, "Radio Room", 7⟩] }) :=
  ⟨by decide, cacheHit_frame none demoDB "X" (some "Radio Room") 7
    ⟨1, "X", false, "spotify", 0⟩ (by decide)⟩

/-- Claim C8: the store lookup is exact and case-sensitive, so resolving
two names that differ only in letter case creates two distinct artist rows
with distinct ids, and each call returns a record bearing its own name. -/
theorem caseSensitive_two_records (sp : Option SpotifyClient)
    (n1 n2 : String) (t1 t2 : Nat)
    (hne : n1 ≠ n2) (_hcase : lowerStr n1 = lowerStr n2) :
    ∃ d1 d2,
      process_artist sp DB.empty n1 none t1 =
        .ok (d1, save_artist_to_db DB.empty (candidate sp n1) t1) ∧
      process_artist sp (save_artist_to_db DB.empty (candidate sp n1) t1)
          n2 none t2 =
        .ok (d2, save_artist_to_db
          (save_artist_to_db DB.empty (candidate sp n1) t1)
          (candidate sp n2) t2) ∧
      (save_artist_to_db (save_artist_to_db DB.empty (candidate sp n1) t1)
          (candidate sp n2) t2).artists.map (·.name) = [n1, n2] ∧
      (save_artist_to_db (save_artist_to_db DB.empty (candidate sp n1) t1)
          (candidate sp n2) t2).artists.map (·.id) = [1, 2] ∧
      getStr d1 "name" = n1 ∧ getStr d2 "name" = n2 := by
  have hf1 : ∀ a ∈ DB.empty.artists, a.name ≠ getStr (candidate sp n1) "name" := by
    simp [DB.empty]
  have hrow : ∀ a ∈ (save_artist_to_db DB.empty (candidate sp n1) t1).artists,
      a.name = n1 := by
    rw [save_fresh DB.empty (candidate sp n1) t1 hf1]
    intro a ha
    simp [DB.empty] at ha
    rw [ha]
    simpa using candidate_name sp n1
  have hf2 : ∀ a ∈ (save_artist_to_db DB.empty (candidate sp n1) t1).artists,
      a.name ≠ getStr (candidate sp n2) "name" := by
    intro a ha
    rw [hrow a ha, candidate_name sp n2]
    exact hne
  refine ⟨candidate sp n1, candidate sp n2,
    process_miss sp DB.empty n1 t1 (by simp [DB.empty]), ?_, ?_, ?_,
    candidate_name sp n1, candidate_name sp n2⟩
  · apply process_miss
    intro a ha
    rw [hrow a ha]
    exact hne
  · rw [save_fresh _ _ _ hf2, save_fresh _ _ _ hf1]
    simp [DB.empty, candidate_name]
  · rw [save_fresh _ _ _ hf2, save_fresh _ _ _ hf1]
    simp [DB.empty]

/-- Witness for `caseSensitive_two_records` at "The Band" / "the band". -/
theorem caseSensitive_two_records_witness :
    ("The Band" : String) ≠ "the band" ∧
    lowerStr "The Band" = lowerStr "the band" ∧
    ∃ d1 d2,
      process_artist none DB.empty "The Band" none 0 =
        .ok (d1, save_artist_to_db DB.empty (candidate none "The Band") 0) ∧
      process_artist none (save_artist_to_db DB.empty (candidate none "The Band") 0)
          "the band" none 1 =
        .ok (d2, save_artist_to_db
          (save_artist_to_db DB.empty (candidate none "The Band") 0)
          (candidate none "the band") 1) ∧
      (save_artist_to_db (save_artist_to_db DB.empty (candidate none "The Band") 0)
          (candidate none "the band") 1).artists.map (·.name) =
        ["The Band", "the band"] ∧
      (save_artist_to_db (save_artist_to_db DB.empty (candidate none "The Band") 0)
          (candidate none "the band") 1).artists.map (·.id) = [1, 2] ∧
      getStr d1 "name" = "The Band" ∧ getStr d2 "name" = "the band" :=
  ⟨by decide, by decide,
   caseSensitive_two_records none "The Band" "the band" 0 1
     (by decide) (by decide)⟩

/-- Claim C10: every genre row written by one insert carries the identical
record-level confidence and the identical comma-joined string of all
contributing sources (no per-tag adapter attribution or per-tag
confidence): any row of the post-insert table is either an old row or
carries exactly the record's confidence and joined source list. -/
theorem genreRows_uniform_metadata (info : Dict) (db : DB) (now : Nat)
    (g : GenreRow) (hg : g ∈ (save_artist_to_db db info now).genres) :
    g ∈ db.genres ∨
      (g.artist_id = db.nextId ∧ g.confidence = getRat info "confidence" ∧
       g.source = String.intercalate "," (getStrList info "sources")) := by
  simp only [save_artist_to_db] at hg
  split at hg
  · exact Or.inl hg
  · simp only [List.mem_append] at hg
    rcases hg with hg | hg
    · exact Or.inl hg
    · obtain ⟨s, _, rfl⟩ := List.mem_map.mp hg
      exact Or.inr ⟨rfl, rfl, rfl⟩

/-- Witness for `genreRows_uniform_metadata`: insert of a two-source
candidate; the "rock" row carries confidence 0.8 and source
"spotify,extra". -/
theorem genreRows_uniform_metadata_witness :
    (⟨1, "rock", 8/10, "spotify,extra"⟩ : GenreRow) ∈
      (save_artist_to_db DB.empty
        [("name", Val.str "A"), ("genres", Val.strList ["rock"]),
         ("confidence", Val.rat (8/10)),
         ("sources", Val.strList ["spotify", "extra"])] 0).genres ∧
    ((⟨1, "rock", 8/10, "spotify,extra"⟩ : GenreRow) ∈ DB.empty.genres ∨
      ((1 : Nat) = DB.empty.nextId ∧
       (8/10 : ℚ) = getRat
         [("name", Val.str "A"), ("genres", Val.strList ["rock"]),
          ("confidence", Val.rat (8/10)),
          ("sources", Val.strList ["spotify", "extra"])] "confidence" ∧
       "spotify,extra" = String.intercalate ","
         (getStrList
           [("name", Val.str "A"), ("genres", Val.strList ["rock"]),
            ("confidence", Val.rat (8/10)),
            ("sources", Val.strList ["spotify", "extra"])] "sources"))) :=
  have hmem : (⟨1, "rock", 8/10, "spotify,extra"⟩ : GenreRow) ∈
      (save_artist_to_db DB.empty
        [("name", Val.str "A"), ("genres", Val.strList ["rock"]),
         ("confidence", Val.rat (8/10)),
         ("sources", Val.strList ["spotify", "extra"])] 0).genres := by
    rw [show (save_artist_to_db DB.empty
        [("name", Val.str "A"), ("genres", Val.strList ["rock"]),
         ("confidence", Val.rat (8/10)),
         ("sources", Val.strList ["spotify", "extra"])] 0).genres =
      [⟨1, "rock", 8/10, "spotify,extra"⟩] from rfl]
    exact List.mem_singleton.mpr rfl
  ⟨hmem,
   genreRows_uniform_metadata
     [("name", Val.str "A"), ("genres", Val.strList ["rock"]),
      ("confidence", Val.rat (8/10)),
      ("sources", Val.strList ["spotify", "extra"])]
     DB.empty 0 ⟨1, "rock", 8/10, "spotify,extra"⟩ hmem⟩

/-- Claim C9: the record `process_artist` returns has two shapes — on a
cache miss the candidate dict's keys are name, genres, is_local,
confidence, sources, plus popularity and spotify_id exactly when the
catalog adapter contributed (so no id and no venue history); on a cache
hit the stored dict's keys are id, name, is_local, verification_source,
last_updated, genres, venues (so no confidence and no sources list). -/
theorem record_shapes (sp : Option SpotifyClient) (db : DB) (name : String)
    (venue : Option String) (now : Nat) :
    (get_artist_from_db db name = none →
      ∃ d db', process_artist sp db name none now = .ok (d, db') ∧
        dictKeys d = (match sp with
          | none => ["name", "genres", "is_local", "confidence", "sources"]
          | some client =>
            match client name with
            | .ok (_ :: _) => ["name", "genres", "is_local", "confidence",
                "sources", "popularity", "spotify_id"]
            | _ => ["name", "genres", "is_local", "confidence", "sources"])) ∧
    (∀ a, db.artists.find? (fun r => r.name == name) = some a →
      ∃ d db', process_artist sp db name venue now = .ok (d, db') ∧
        dictKeys d = ["id", "name", "is_local", "verification_source",
          "last_updated", "genres", "venues"]) := by
  constructor
  · intro hmiss
    refine ⟨candidate sp name,
      save_artist_to_db db (candidate sp name) now, ?_, ?_⟩
    · simp [process_artist, hmiss, gather_eq_candidate]
    · cases sp with
      | none => rfl
      | some client =>
        cases h : client name with
        | err => simp [candidate, h, baseCandidate, dictKeys]
        | ok items =>
          cases items with
          | nil => simp [candidate, h, baseCandidate, dictKeys]
          | cons a rest => simp [candidate, h, spotifyCandidate, dictKeys]
  · intro a hfind
    have h := get_artist_from_db_of_find db name a hfind
    cases venue with
    | none => exact ⟨hitDict db a, db, by simp [process_artist, h], rfl⟩
    | some v =>
      exact ⟨hitDict db a,
        update_venue_info db (getNat (hitDict db a) "id") v now,
        by simp [process_artist, h], rfl⟩

/-- Witness for `record_shapes`: instantiation at the one-artist store
`demoDB`, name "X", venue "Radio Room", no catalog client; the inner
cache-hit hypothesis is dischargeable there. -/
theorem record_shapes_witness :
    (get_artist_from_db demoDB "X" = none →
      ∃ d db', process_artist none demoDB "X" none 5 = .ok (d, db') ∧
        dictKeys d = (match (none : Option SpotifyClient) with
          | none => ["name", "genres", "is_local", "confidence", "sources"]
          | some client =>
            match client "X" with
            | .ok (_ :: _) => ["name", "genres", "is_local", "confidence",
                "sources", "popularity", "spotify_id"]
            | _ => ["name", "genres", "is_local", "confidence", "sources"])) ∧
    (∀ a, demoDB.artists.find? (fun r => r.name == "X") = some a →
      ∃ d db', process_artist none demoDB "X" (some "Radio Room") 5 =
          .ok (d, db') ∧
        dictKeys d = ["id", "name", "is_local", "verification_source",
          "last_updated", "genres", "venues"]) :=
  record_shapes none demoDB "X" (some "Radio Room") 5

/-- Claim C6 counterexample: at the concrete input (empty store, name
"Tame Impala", venue "Peace Center") `process_artist` neither returns a
record nor fails with a persistence-level error: it raises
`KeyError: 'id'`. -/
theorem resolve_raises_keyError_concrete :
    process_artist none DB.empty "Tame Impala" (some "Peace Center") 3 =
      .error (.keyError "id") := rfl

/-- Claim C6 amended: `process_artist` returns a record whenever the venue
is absent or the artist is already stored, and raises `KeyError: 'id'`
exactly when a venue is supplied on a cache miss; store-level insert
failures are rolled back and logged but never surfaced (the miss path
still returns the candidate), so no persistence error ever reaches the
caller. -/
theorem resolve_total_behavior (sp : Option SpotifyClient) (db : DB)
    (name : String) (venue : Option String) (now : Nat) :
    (get_artist_from_db db name = none ∧ venue.isSome →
      process_artist sp db name venue now = .error (.keyError "id")) ∧
    ((get_artist_from_db db name).isSome ∨ venue = none →
      ∃ d db', process_artist sp db name venue now = .ok (d, db')) := by
  constructor
  · rintro ⟨hm, hv⟩
    cases venue with
    | none => simp at hv
    | some v => simp [process_artist, hm, gather_some_venue]
  · rintro (hs | rfl)
    · obtain ⟨d, hd⟩ := Option.isSome_iff_exists.mp hs
      cases venue with
      | none => exact ⟨d, db, by simp [process_artist, hd]⟩
      | some v =>
        exact ⟨d, update_venue_info db (getNat d "id") v now,
          by simp [process_artist, hd]⟩
    · cases hq : get_artist_from_db db name with
      | some d => exact ⟨d, db, by simp [process_artist, hq]⟩
      | none =>
        exact ⟨candidate sp name,
          save_artist_to_db db (candidate sp name) now,
          by simp [process_artist, hq, gather_eq_candidate]⟩

/-- Witness for `resolve_total_behavior` at a concrete input: hit on "X"
in `demoDB` with a venue supplied. -/
theorem resolve_total_behavior_witness :
    (get_artist_from_db demoDB "X" = none ∧ (some "Radio Room").isSome →
      process_artist none demoDB "X" (some "Radio Room") 9 =
        .error (.keyError "id")) ∧
    ((get_artist_from_db demoDB "X").isSome ∨ (some "Radio Room") = none →
      ∃ d db', process_artist none demoDB "X" (some "Radio Room") 9 =
        .ok (d, db')) :=
  resolve_total_behavior none demoDB "X" (some "Radio Room") 9

lemma hitDict_id (db : DB) (a : ArtistRow) :
    dictGet (hitDict db a) "id" = some (.nat a.id) := rfl

lemma hitDict_genres (db : DB) (a : ArtistRow) :
    getStrList (hitDict db a) "genres" =
      (db.genres.filter (fun g => g.artist_id == a.id)).map (·.genre) := rfl

/-- Claim C2 counterexample: from the empty store, two no-venue calls for
"X" do not return records with the same id — the first call's record has
no id key at all (the assigned rowid is never propagated into it), while
the second call returns the stored record with id 1. -/
theorem resolve_twice_ids_differ :
    ∃ d1 db1 d2 db2,
      process_artist none DB.empty "X" none 0 = .ok (d1, db1) ∧
      process_artist none db1 "X" none 1 = .ok (d2, db2) ∧
      dictGet d1 "id" = none ∧ dictGet d2 "id" = some (.nat 1) := by
  refine ⟨baseCandidate "X", ⟨[⟨1, "X", false, "", 0⟩], [], [], 2⟩,
    [("id", .nat 1), ("name", .str "X"), ("is_local", .bool false),
     ("verification_source", .str ""), ("last_updated", .nat 0),
     ("genres", .strList []), ("venues", .visitList [])],
    ⟨[⟨1, "X", false, "", 0⟩], [], [], 2⟩, ?_, ?_, ?_, ?_⟩ <;> rfl

/-- Claim C2 amended: with no venue, the second `process_artist` call for
the same name is a pure cache hit — its result is independent of the
adapter client (`sp'` is arbitrary and unused in the conclusion) and it
performs no insert (the store comes back unchanged) — returning the stored
record, whose genres are the first call's genres deduplicated; but the two
calls do not return the same id: the first call's record carries no id key,
the second carries the insert's assigned id. -/
theorem resolve_then_cache_hit (sp sp' : Option SpotifyClient)
    (name : String) (db : DB) (n1 n2 : Nat)
    (hmiss : ∀ a ∈ db.artists, a.name ≠ name)
    (hfresh : ∀ g ∈ db.genres, g.artist_id ≠ db.nextId) :
    ∃ d1 db1 d2,
      process_artist sp db name none n1 = .ok (d1, db1) ∧
      process_artist sp' db1 name none n2 = .ok (d2, db1) ∧
      dictGet d1 "id" = none ∧
      dictGet d2 "id" = some (.nat db.nextId) ∧
      (getStrList d2 "genres").Nodup ∧
      (∀ g, g ∈ getStrList d2 "genres" ↔ g ∈ getStrList d1 "genres") := by
  have hcn := candidate_name sp name
  have hf : ∀ a ∈ db.artists, a.name ≠ getStr (candidate sp name) "name" :=
    fun a ha => by rw [hcn]; exact hmiss a ha
  have hsave := save_fresh db (candidate sp name) n1 hf
  have h0 : db.artists.find? (fun r => r.name == name) = none := by
    rw [List.find?_eq_none]
    intro a ha
    simpa using hmiss a ha
  have hrowname : ((⟨db.nextId, getStr (candidate sp name) "name",
      getBool (candidate sp name) "is_local",
      String.intercalate "," (getStrList (candidate sp name) "sources"),
      n1⟩ : ArtistRow).name == name) = true := by
    simp [hcn]
  have hfind : (save_artist_to_db db (candidate sp name) n1).artists.find?
      (fun r => r.name == name) =
      some ⟨db.nextId, getStr (candidate sp name) "name",
        getBool (candidate sp name) "is_local",
        String.intercalate "," (getStrList (candidate sp name) "sources"),
        n1⟩ := by
    rw [hsave, List.find?_append, h0]
    simp [List.find?, hrowname]
  have hget2 := get_artist_from_db_of_find _ name _ hfind
  have hgen : getStrList (hitDict (save_artist_to_db db (candidate sp name) n1)
      ⟨db.nextId, getStr (candidate sp name) "name",
       getBool (candidate sp name) "is_local",
       String.intercalate "," (getStrList (candidate sp name) "sources"),
       n1⟩) "genres" = (getStrList (candidate sp name) "genres").dedup := by
    rw [hitDict_genres]
    show (((save_artist_to_db db (candidate sp name) n1).genres.filter
      (fun g => g.artist_id == db.nextId)).map (·.genre)) = _
    rw [hsave]
    have h1 : db.genres.filter (fun g => g.artist_id == db.nextId) = [] := by
      rw [List.filter_eq_nil_iff]
      intro g hg
      simpa using hfresh g hg
    have h2 : (((getStrList (candidate sp name) "genres").dedup.map
        (fun g => GenreRow.mk db.nextId g (getRat (candidate sp name) "confidence")
          (String.intercalate "," (getStrList (candidate sp name) "sources")))).filter
        (fun g => g.artist_id == db.nextId)) =
        ((getStrList (candidate sp name) "genres").dedup.map
        (fun g => GenreRow.mk db.nextId g (getRat (candidate sp name) "confidence")
          (String.intercalate "," (getStrList (candidate sp name) "sources")))) := by
      rw [List.filter_eq_self]
      intro r hr
      obtain ⟨g, _, rfl⟩ := List.mem_map.mp hr
      simp
    simp only [List.filter_append, h1, List.nil_append, h2, List.map_map,
      Function.comp_def]
    simp
  refine ⟨candidate sp name, save_artist_to_db db (candidate sp name) n1,
    hitDict (save_artist_to_db db (candidate sp name) n1)
      ⟨db.nextId, getStr (candidate sp name) "name",
       getBool (candidate sp name) "is_local",
       String.intercalate "," (getStrList (candidate sp name) "sources"),
       n1⟩,
    process_miss sp db name n1 hmiss,
    by simp [process_artist, hget2],
    candidate_id_none sp name,
    hitDict_id _ _, ?_, ?_⟩
  · rw [hgen]
    exact List.nodup_dedup _
  · intro g
    rw [hgen]
    exact List.mem_dedup

/-- Witness for `resolve_then_cache_hit` on the empty store with no
catalog client. -/
theorem resolve_then_cache_hit_witness :
    (∀ a ∈ DB.empty.artists, a.name ≠ "X") ∧
    (∀ g ∈ DB.empty.genres, g.artist_id ≠ DB.empty.nextId) ∧
    (∃ d1 db1 d2,
      process_artist none DB.empty "X" none 0 = .ok (d1, db1) ∧
      process_artist none db1 "X" none 1 = .ok (d2, db1) ∧
      dictGet d1 "id" = none ∧
      dictGet d2 "id" = some (.nat DB.empty.nextId) ∧
      (getStrList d2 "genres").Nodup ∧
      (∀ g, g ∈ getStrList d2 "genres" ↔ g ∈ getStrList d1 "genres")) :=
  ⟨by simp [DB.empty], by simp [DB.empty],
   resolve_then_cache_hit none none "X" DB.empty 0 1
     (by simp [DB.empty]) (by simp [DB.empty])⟩

/-- Claim C5 counterexample: replaying the §5 race at a concrete input —
a rival resolution commits "X" (id 1) between this resolution's lookup and
insert — the duplicate insert is swallowed (store unchanged, nothing
surfaced) but the lookup is not retried: the raced resolution returns its
candidate, which has no id, while the store's record for "X" has id 1, so
the two resolutions do not return records with the same id. -/
theorem duplicate_insert_no_retry :
    process_artist none DB.empty "X" none 0 =
      .ok (baseCandidate "X", ⟨[⟨1, "X", false, "", 0⟩], [], [], 2⟩) ∧
    process_artist_raced none DB.empty
        ⟨[⟨1, "X", false, "", 0⟩], [], [], 2⟩ "X" none 1 =
      .ok (baseCandidate "X", ⟨[⟨1, "X", false, "", 0⟩], [], [], 2⟩) ∧
    dictGet (baseCandidate "X") "id" = none ∧
    (get_artist_from_db ⟨[⟨1, "X", false, "", 0⟩], [], [], 2⟩ "X").map
      (fun d => dictGet d "id") = some (some (.nat 1)) := by
  refine ⟨?_, ?_, ?_, ?_⟩ <;> rfl

/-- Claim C5 amended: when a rival resolution committed the same name
between this resolution's lookup and insert, the duplicate-name insert
failure is caught, rolled back and never surfaced — the raced resolution
still completes, with the store unchanged — but the find step is not
retried: the call returns its in-memory candidate, which carries no id,
rather than the stored record. -/
theorem duplicate_insert_swallowed (sp : Option SpotifyClient)
    (dbFind dbCommit : DB) (name : String) (now : Nat)
    (hmiss : ∀ a ∈ dbFind.artists, a.name ≠ name)
    (hdup : ∃ a ∈ dbCommit.artists, a.name = name) :
    process_artist_raced sp dbFind dbCommit name none now =
      .ok (candidate sp name, dbCommit) ∧
    dictGet (candidate sp name) "id" = none := by
  have h0 := get_artist_from_db_none dbFind name hmiss
  have hdup' : ∃ a ∈ dbCommit.artists,
      a.name = getStr (candidate sp name) "name" := by
    obtain ⟨a, ha, he⟩ := hdup
    exact ⟨a, ha, by rw [candidate_name]; exact he⟩
  refine ⟨?_, candidate_id_none sp name⟩
  simp [process_artist_raced, h0, gather_eq_candidate,
    save_dup dbCommit (candidate sp name) now hdup']

/-- Witness for `duplicate_insert_swallowed`: lookup ran on the empty
store, the rival committed "X" into `demoDB` before the insert. -/
theorem duplicate_insert_swallowed_witness :
    (∀ a ∈ DB.empty.artists, a.name ≠ "X") ∧
    (∃ a ∈ demoDB.artists, a.name = "X") ∧
    (process_artist_raced none DB.empty demoDB "X" none 2 =
        .ok (candidate none "X", demoDB) ∧
      dictGet (candidate none "X") "id" = none) :=
  ⟨by simp [DB.empty],
   ⟨⟨1, "X", false, "spotify", 0⟩, by simp [demoDB], rfl⟩,
   duplicate_insert_swallowed none DB.empty demoDB "X" 2
     (by simp [DB.empty])
     ⟨⟨1, "X", false, "spotify", 0⟩, by simp [demoDB], rfl⟩⟩

end GreenvilleMusic
